import Mathlib

/-!
Shallow embedding of the CATCH query cache and multi-source dispatch engine
(class `Catch` in `catch/catch.py`).

Dates are represented by their MJD value as rationals: the code stores ISO
strings and compares them for equality only, and compares MJD floats for
ordering; both coincide with equality resp. ordering of the underlying time
value.  Floating-point quantities (padding, execution time) are modelled as
rationals.  The external sbsearch capabilities (per-source observation
tables, ephemeris retrieval plus spatial search, fixed-target search, the
wall clock) are modelled as oracle functions collected in `Env`.

The `catch_query` table is modelled as a list kept newest-first (strictly
descending `query_id`), so the source's `ORDER BY query_id DESC … first()`
becomes `List.head?` of the filtered list.
-/

namespace CatchSpec

/-- Status column of a `CatchQuery` row: "in progress", "finished",
"errored". -/
inductive QueryStatus where
  | in_progress
  | finished
  | errored
  deriving DecidableEq, Repr

/-- One row of the `catch_query` table.  The `date` (creation timestamp)
and `intersection_type` columns are omitted: no claim mentions them and no
modelled code path reads them. -/
structure CatchQuery where
  query_id : Nat
  query : String
  job_id : String
  source : String
  status : QueryStatus
  uncertainty_ellipse : Bool
  padding : ℚ
  start_date : Option ℚ
  stop_date : Option ℚ
  execution_time : Option ℚ
  deriving DecidableEq, Repr

/-- Content of a `Found` row apart from its keys: stands for the
`_found_attributes` column set (every public attribute except `found_id`
and `query_id`), which `_copy_cached_results` copies wholesale. -/
structure FoundContent where
  observation_id : Nat
  mjd : ℚ
  deriving DecidableEq, Repr

/-- One row of the `found` table. -/
structure Found where
  found_id : Nat
  query_id : Nat
  content : FoundContent
  deriving DecidableEq, Repr

/-- An observation returned by a fixed-target search. -/
structure FixedObs where
  source : String
  observation_id : Nat
  deriving DecidableEq, Repr

/-- The durable store: the `catch_query` and `found` tables plus their id
sequences.  `queries` is kept newest-first (strictly descending
`query_id`). -/
structure DB where
  queries : List CatchQuery
  founds : List Found
  next_query_id : Nat
  next_found_id : Nat
  deriving DecidableEq, Repr

/-- The empty store. -/
def DB.empty : DB := ⟨[], [], 0, 0⟩

/-- Search parameters held on the `Catch` object: `uncertainty_ellipse`,
`padding`, `start_date`, `stop_date`. -/
structure Params where
  uncertainty_ellipse : Bool
  padding : ℚ
  start_date : Option ℚ
  stop_date : Option ℚ
  deriving DecidableEq, Repr

/-- Outcome of the external part of the moving-target pipeline (steps 3-6
of `_find_and_cache_moving_target_observations`: ephemeris retrieval over
the clamped window extended by one day on each side, the spatial search,
and `add_found`): the list of found-row contents on success, otherwise the
failure that occurred.  `unexpected_error` stands for any exception that is
not a `CatchException`. -/
inductive MovingSearchResult where
  | success (contents : List FoundContent)
  | ephemeris_error
  | find_error
  | add_found_error
  | unexpected_error
  deriving DecidableEq, Repr

/-- Outcome of the external fixed-target search
(`_get_fixed_target_observations` body). -/
inductive FixedSearchResult where
  | success (observations : List FixedObs)
  | data_source_warning
  | catch_error
  | unexpected_error
  deriving DecidableEq, Repr

/-- External collaborators: the known-source registry (`Catch.sources`
keys), each source's observation table (rows reduced to their
`(mjd_start, mjd_stop)` interval), the two search oracles, and the wall
clock used for `execution_time`. -/
structure Env where
  known_sources : List String
  obs : String → List (ℚ × ℚ)
  search : String → String → ℚ → ℚ → MovingSearchResult
  fixed_search : String → ℚ → FixedSearchResult
  elapsed : String → ℚ

/-- Kinds of messages published on the job's message channel.  The message
texts are abstracted to constructors carrying the formatted data. -/
inductive MsgKind where
  | added_cached (n : Nat)
  | query_range (start stop : ℚ)
  | no_observations
  | caught_count (n : Nat)
  | fixed_query
  | error_ephemeris
  | error_find
  | error_add_found
  | error_unexpected
  deriving DecidableEq, Repr

/-- A message on the job's channel, tagged with the source (or joined
source set) it concerns. -/
structure Msg where
  source : String
  kind : MsgKind
  deriving DecidableEq, Repr

/-- Whether a message is informational (`task_messenger.send`) rather than
an error report (`task_messenger.error`). -/
def Msg.is_info (m : Msg) : Bool :=
  match m.kind with
  | .added_cached _ | .query_range _ _ | .no_observations
  | .caught_count _ | .fixed_query => true
  | _ => false

/-- Minimum `mjd_start` and maximum `mjd_stop` over a source's observation
table (`func.min` / `func.max` filtered by source); `none` on an empty
table, where SQL returns NULL for both aggregates. -/
def survey_date_range : List (ℚ × ℚ) → Option (ℚ × ℚ)
  | [] => none
  | o :: rest => some (rest.foldl (fun acc p => (min acc.1 p.1, max acc.2 p.2)) o)

/-- Date normalization of `_find_catch_query`: by default the cache key
uses `none` for both bounds; a requested bound is kept only when the
survey has data and the bound lies strictly inside the survey's own date
range (requested start strictly after the survey minimum, requested stop
strictly before the survey maximum). -/
def normalize_dates (range : Option (ℚ × ℚ)) (start stop : Option ℚ) :
    Option ℚ × Option ℚ :=
  match range with
  | none => (none, none)
  | some (mjd_survey_start, mjd_survey_stop) =>
    ((match start with
      | some t => if mjd_survey_start < t then some t else none
      | none => none),
     (match stop with
      | some t => if t < mjd_survey_stop then some t else none
      | none => none))

/-- The `CatchQuery.padding.between(self.padding * 0.99, self.padding * 1.01)`
filter of `_find_catch_query`; `stored` is the stored row's padding,
`requested` the current request's padding. -/
def padding_between (stored requested : ℚ) : Bool :=
  decide (requested * 0.99 ≤ stored) && decide (stored ≤ requested * 1.01)

/-- Row filter of `_find_catch_query`: same target string, same source,
finished status, same uncertainty-ellipse flag, padding within the between
filter, and stored start/stop equal to the normalized requested dates
`nd`. -/
def catch_query_filter (p : Params) (target source : String)
    (nd : Option ℚ × Option ℚ) (q : CatchQuery) : Bool :=
  decide (q.query = target) && decide (q.source = source)
    && decide (q.status = QueryStatus.finished)
    && decide (q.uncertainty_ellipse = p.uncertainty_ellipse)
    && padding_between q.padding p.padding
    && decide (q.start_date = nd.1) && decide (q.stop_date = nd.2)

/-- `Catch._find_catch_query`: the most recent finished query matching the
current request, with the requested dates normalized against the source's
actual coverage; `none` when there is no match. -/
def find_catch_query (env : Env) (db : DB) (p : Params) (target source : String) :
    Option CatchQuery :=
  let range := survey_date_range (env.obs source)
  let nd := normalize_dates range p.start_date p.stop_date
  (db.queries.filter (catch_query_filter p target source nd)).head?

/-- Creation of fresh `Found` rows for the given contents: ids are drawn
consecutively from the sequence starting at `next_id`, and every row
belongs to query `query_id`. -/
def new_founds (next_id query_id : Nat) : List FoundContent → List Found
  | [] => []
  | c :: rest => ⟨next_id, query_id, c⟩ :: new_founds (next_id + 1) query_id rest

/-- `Catch._copy_cached_results`: every `Found` row of `cached_query_id` is
copied (each attribute except `found_id` and `query_id`) into a fresh row
owned by `query_id`.  Returns the copied rows; their number is the
method's return value. -/
def copy_cached_results (db : DB) (query_id cached_query_id : Nat) : List Found :=
  new_founds db.next_found_id query_id
    ((db.founds.filter (fun f => decide (f.query_id = cached_query_id))).map Found.content)

/-- Outcome kinds of `_find_and_cache_moving_target_observations`:
a successful search with its found contents, the `DataSourceWarning`
raised on an empty survey or an empty overlap with the requested window,
or one of the wrapped errors. -/
inductive FindResult where
  | found (contents : List FoundContent)
  | data_source_warning
  | ephemeris_error
  | find_object_error
  | add_found_error
  | unexpected_error
  deriving DecidableEq, Repr

/-- Whether an outcome is one of the `CatchException` domain failures
(ephemeris lookup failure, spatial-search failure, found-table insertion
failure). -/
def FindResult.is_domain_error : FindResult → Bool
  | .ephemeris_error | .find_object_error | .add_found_error => true
  | _ => false

/-- Control flow of `_find_and_cache_moving_target_observations` up to its
outcome: when the survey has no observations at all, or the survey range
does not overlap the requested window, `DataSourceWarning` is raised
before any message is sent; otherwise the date-range message is sent and
the external pipeline runs on the clamped window.  The second component
collects the messages sent inside the method. -/
def find_and_cache_outcome (env : Env) (p : Params) (target source : String) :
    FindResult × List Msg :=
  match survey_date_range (env.obs source) with
  | none => (.data_source_warning, [])
  | some (mjd_survey_start, mjd_survey_stop) =>
    let mjd_start := match p.start_date with
      | none => mjd_survey_start
      | some t => max mjd_survey_start t
    let mjd_stop := match p.stop_date with
      | none => mjd_survey_stop
      | some t => min mjd_survey_stop t
    if mjd_stop < mjd_start then (.data_source_warning, [])
    else
      match env.search target source mjd_start mjd_stop with
      | .success contents =>
        (.found contents, [⟨source, .query_range mjd_start mjd_stop⟩])
      | .ephemeris_error =>
        (.ephemeris_error, [⟨source, .query_range mjd_start mjd_stop⟩])
      | .find_error =>
        (.find_object_error, [⟨source, .query_range mjd_start mjd_stop⟩])
      | .add_found_error =>
        (.add_found_error, [⟨source, .query_range mjd_start mjd_stop⟩])
      | .unexpected_error =>
        (.unexpected_error, [⟨source, .query_range mjd_start mjd_stop⟩])

/-- The freshly inserted in-progress row of `_query_moving_target`:
status "in progress", the raw (un-normalized) requested dates, no
execution time yet. -/
def initial_query (db : DB) (p : Params) (target job_id source : String) :
    CatchQuery :=
  { query_id := db.next_query_id
    query := target
    job_id := job_id
    source := source
    status := .in_progress
    uncertainty_ellipse := p.uncertainty_ellipse
    padding := p.padding
    start_date := p.start_date
    stop_date := p.stop_date
    execution_time := none }

/-- One iteration of the source loop of `_query_moving_target`: cache
lookup, insertion of the in-progress row, then either the cached-copy
branch (no execution time recorded) or the fresh search wrapped in the
exception handlers with the `finally` clause recording the execution time.
Returns the observation count contributed by the source, the new store,
and the messages sent. -/
def query_moving_target_step (env : Env) (p : Params) (target job_id : String)
    (cached : Bool) (source : String) (db : DB) : Nat × DB × List Msg :=
  let cached_query := find_catch_query env db p target source
  let q := initial_query db p target job_id source
  match cached, cached_query with
  | true, some cq =>
    let clones := copy_cached_results db q.query_id cq.query_id
    (clones.length,
     { queries := { q with status := .finished } :: db.queries
       founds := clones ++ db.founds
       next_query_id := db.next_query_id + 1
       next_found_id := db.next_found_id + clones.length },
     [⟨source, .added_cached clones.length⟩])
  | _, _ =>
    match find_and_cache_outcome env p target source with
    | (.found contents, msgs) =>
      (contents.length,
       { queries := { q with status := .finished,
                             execution_time := some (env.elapsed source) } :: db.queries
         founds := new_founds db.next_found_id q.query_id contents ++ db.founds
         next_query_id := db.next_query_id + 1
         next_found_id := db.next_found_id + contents.length },
       msgs)
    | (.data_source_warning, msgs) =>
      (0,
       { queries := { q with status := .finished,
                             execution_time := some (env.elapsed source) } :: db.queries
         founds := db.founds
         next_query_id := db.next_query_id + 1
         next_found_id := db.next_found_id },
       msgs ++ [⟨source, .no_observations⟩])
    | (.ephemeris_error, msgs) =>
      (0,
       { queries := { q with status := .errored,
                             execution_time := some (env.elapsed source) } :: db.queries
         founds := db.founds
         next_query_id := db.next_query_id + 1
         next_found_id := db.next_found_id },
       msgs ++ [⟨source, .error_ephemeris⟩])
    | (.find_object_error, msgs) =>
      (0,
       { queries := { q with status := .errored,
                             execution_time := some (env.elapsed source) } :: db.queries
         founds := db.founds
         next_query_id := db.next_query_id + 1
         next_found_id := db.next_found_id },
       msgs ++ [⟨source, .error_find⟩])
    | (.add_found_error, msgs) =>
      (0,
       { queries := { q with status := .errored,
                             execution_time := some (env.elapsed source) } :: db.queries
         founds := db.founds
         next_query_id := db.next_query_id + 1
         next_found_id := db.next_found_id },
       msgs ++ [⟨source, .error_add_found⟩])
    | (.unexpected_error, msgs) =>
      (0,
       { queries := { q with status := .errored,
                             execution_time := some (env.elapsed source) } :: db.queries
         founds := db.founds
         next_query_id := db.next_query_id + 1
         next_found_id := db.next_found_id },
       msgs ++ [⟨source, .error_unexpected⟩])

/-- The source loop of `_query_moving_target`: per-source work is run in
order, counts are summed and messages concatenated. -/
def query_moving_target_loop (env : Env) (p : Params) (target job_id : String)
    (cached : Bool) : List String → DB → Nat × DB × List Msg
  | [], db => (0, db, [])
  | source :: rest, db =>
    let r1 := query_moving_target_step env p target job_id cached source db
    let r2 := query_moving_target_loop env p target job_id cached rest r1.2.1
    (r1.1 + r2.1, r2.2.1, r1.2.2 ++ r2.2.2)

/-- Date-range validity check at the top of `_query_moving_target`: both
bounds given and start strictly after stop. -/
def date_range_invalid (p : Params) : Bool :=
  match p.start_date, p.stop_date with
  | some t0, some t1 => decide (t1 < t0)
  | _, _ => false

/-- Errors that `query` raises to its caller. -/
inductive CatchErr where
  | value_error
  | date_range_error
  | unexpected_error
  deriving DecidableEq, Repr

/-- `Catch._query_moving_target`: raises `DateRangeError` before any row
is written when the requested start date is after the stop date; otherwise
runs the source loop.  The store is returned as committed so far in every
case. -/
def query_moving_target (env : Env) (p : Params) (target job_id : String)
    (sources : List String) (cached : Bool) (db : DB) :
    Except CatchErr Nat × DB × List Msg :=
  if date_range_invalid p then (.error .date_range_error, db, [])
  else
    let r := query_moving_target_loop env p target job_id cached sources db
    (.ok r.1, r.2.1, r.2.2)

/-- `Catch._query_fixed_target`: one query row over the joined source set
with `uncertainty_ellipse` stored as false; `DataSourceWarning` and
`CatchException` are handled (status finished resp. errored, empty result
list), any other exception propagates after the `finally` clause has
recorded the execution time and committed; the found observations are
filtered to the requested sources. -/
def query_fixed_target (env : Env) (p : Params) (target job_id : String)
    (sources : List String) (db : DB) :
    Except CatchErr (List FixedObs) × DB × List Msg :=
  let joined := String.intercalate "," sources
  let q : CatchQuery :=
    { query_id := db.next_query_id
      query := target
      job_id := job_id
      source := joined
      status := .in_progress
      uncertainty_ellipse := false
      padding := p.padding
      start_date := p.start_date
      stop_date := p.stop_date
      execution_time := none }
  let dt := env.elapsed joined
  match env.fixed_search target p.padding with
  | .success observations =>
    let kept := observations.filter (fun o => sources.contains o.source)
    (.ok kept,
     { db with
         queries := { q with status := .finished, execution_time := some dt } :: db.queries
         next_query_id := db.next_query_id + 1 },
     [⟨joined, .fixed_query⟩, ⟨joined, .caught_count kept.length⟩])
  | .data_source_warning =>
    (.ok [],
     { db with
         queries := { q with status := .finished, execution_time := some dt } :: db.queries
         next_query_id := db.next_query_id + 1 },
     [⟨joined, .fixed_query⟩, ⟨joined, .no_observations⟩])
  | .catch_error =>
    (.ok [],
     { db with
         queries := { q with status := .errored, execution_time := some dt } :: db.queries
         next_query_id := db.next_query_id + 1 },
     [⟨joined, .fixed_query⟩, ⟨joined, .error_find⟩])
  | .unexpected_error =>
    (.error .unexpected_error,
     { db with
         queries := { q with execution_time := some dt } :: db.queries
         next_query_id := db.next_query_id + 1 },
     [⟨joined, .fixed_query⟩])

/-- A query target: a moving-target designation string, or a fixed target
(its serialized position). -/
inductive Target where
  | moving (designation : String)
  | fixed (representation : String)
  deriving DecidableEq, Repr

/-- Return value of `query`: an observation count for moving targets, the
observation list for fixed targets. -/
inductive QueryOutput where
  | count (n : Nat)
  | observations (obs : List FixedObs)
  deriving DecidableEq, Repr

/-- Dispatch of `Catch.query` after source validation. -/
def Catch.query_run (env : Env) (p : Params) (target : Target) (job_id : String)
    (sources : List String) (cached : Bool) (db : DB) :
    Except CatchErr QueryOutput × DB × List Msg :=
  match target with
  | .moving designation =>
    let r := query_moving_target env p designation job_id sources cached db
    (r.1.map QueryOutput.count, r.2.1, r.2.2)
  | .fixed representation =>
    let r := query_fixed_target env p representation job_id sources db
    (r.1.map QueryOutput.observations, r.2.1, r.2.2)

/-- `Catch.query`: validates every requested source name against the
known-source registry, raising `ValueError` before any write when one is
unknown; with `sources=None` all known sources are used; then dispatches
to the moving- or fixed-target search. -/
def Catch.query (env : Env) (p : Params) (target : Target) (job_id : String)
    (sources : Option (List String)) (cached : Bool) (db : DB) :
    Except CatchErr QueryOutput × DB × List Msg :=
  match sources with
  | some l =>
    if l.all (fun s => env.known_sources.contains s) then
      Catch.query_run env p target job_id l cached db
    else (.error .value_error, db, [])
  | none => Catch.query_run env p target job_id env.known_sources cached db

/-- Source loop of `Catch.is_query_cached`: `cached` starts as `true` and
is overwritten by each source's lookup result in turn. -/
def is_query_cached_loop (env : Env) (p : Params) (target : String) (db : DB)
    (sources : List String) : Bool :=
  sources.foldl (fun _cached source => (find_catch_query env db p target source).isSome)
    true

/-- `Catch.is_query_cached`: validates the requested sources exactly as
`query` does, then runs the overwrite loop. -/
def Catch.is_query_cached (env : Env) (p : Params) (target : String)
    (sources : Option (List String)) (db : DB) : Except CatchErr Bool :=
  match sources with
  | some l =>
    if l.all (fun s => env.known_sources.contains s) then
      .ok (is_query_cached_loop env p target db l)
    else .error .value_error
  | none => .ok (is_query_cached_loop env p target db env.known_sources)

/-- Cache-matching rule as the specification words it (CacheValidator):
the normalized request must equal the stored query's NORMALIZED start/stop
values, i.e. the stored dates are also read through the normalization.
This definition follows the spec's words, for comparison with
`find_catch_query`, which compares the normalized request against the
stored dates exactly as stored. -/
def spec_cache_match (env : Env) (p : Params) (target source : String)
    (q : CatchQuery) : Bool :=
  let range := survey_date_range (env.obs source)
  decide (q.query = target) && decide (q.source = source)
    && decide (q.status = QueryStatus.finished)
    && decide (q.uncertainty_ellipse = p.uncertainty_ellipse)
    && padding_between q.padding p.padding
    && decide (normalize_dates range p.start_date p.stop_date
         = normalize_dates range q.start_date q.stop_date)

/-- Well-formedness of the store: ids of existing rows lie strictly below
the id sequences. -/
def DB.WF (db : DB) : Prop :=
  (∀ q ∈ db.queries, q.query_id < db.next_query_id)
    ∧ (∀ f ∈ db.founds, f.found_id < db.next_found_id ∧ f.query_id < db.next_query_id)

/-- The queries list is ordered newest first (strictly descending
`query_id`), as maintained by row insertion. -/
def DB.SortedDesc (db : DB) : Prop :=
  db.queries.Pairwise (fun a b => b.query_id < a.query_id)

/-! Concrete instances used by counterexamples and witnesses. -/

/-- Concrete environment: one known source "a" whose observation table
covers MJD 100 to 200; every moving-target search succeeds with a single
found observation; searches take one second of wall-clock time. -/
def env1 : Env :=
  { known_sources := ["a"]
    obs := fun s => if s = "a" then [(100, 200)] else []
    search := fun _ _ _ _ => .success [⟨7, 150⟩]
    fixed_search := fun _ _ => .success []
    elapsed := fun _ => 1 }

/-- Concrete environment: like `env1` but the source "a" has an empty
observation table. -/
def env_nodata : Env :=
  { env1 with obs := fun _ => [] }

/-- Concrete environment: like `env1` but every moving-target search fails
with an ephemeris lookup error. -/
def env_eph : Env :=
  { env1 with search := fun _ _ _ _ => .ephemeris_error }

/-- Request with a start date far before the coverage of source "a" of
`env1` (the normalization drops it from the cache key). -/
def params_out : Params := ⟨false, 0, some 50, none⟩

/-- Request with no date bounds. -/
def params_open : Params := ⟨false, 0, none, none⟩

/-- First of two identical out-of-coverage-date calls (claim C1). -/
def c1_run1 : Except CatchErr QueryOutput × DB × List Msg :=
  Catch.query env1 params_out (.moving "2P") "j1" (some ["a"]) true DB.empty

/-- Second of two identical out-of-coverage-date calls (claim C1). -/
def c1_run2 : Except CatchErr QueryOutput × DB × List Msg :=
  Catch.query env1 params_out (.moving "2P") "j2" (some ["a"]) true c1_run1.2.1

/-- Older stored finished query with no date bounds (claim C2). -/
def c2_q1 : CatchQuery := ⟨1, "2P", "j0", "a", .finished, false, 0, none, none, some 1⟩

/-- Newer stored finished query whose stored (raw) start date lies before
the coverage of source "a" (claim C2). -/
def c2_q2 : CatchQuery := ⟨2, "2P", "j0", "a", .finished, false, 0, some 50, none, some 1⟩

/-- Store holding `c2_q2` (newest) and `c2_q1` (claim C2). -/
def c2_db : DB := ⟨[c2_q2, c2_q1], [], 3, 0⟩

/-- Request with start date after stop date (claim C3). -/
def c3_params : Params := ⟨false, 0, some 10, some 5⟩

/-- Moving-target call with an invalid date range (claim C3). -/
def c3_run : Except CatchErr QueryOutput × DB × List Msg :=
  Catch.query env1 c3_params (.moving "2P") "j1" (some ["a"]) true DB.empty

/-- Message kind reported by the error handler for each of the three
`CatchException` domain failures. -/
def domain_error_msg : FindResult → MsgKind
  | .ephemeris_error => .error_ephemeris
  | .find_object_error => .error_find
  | .add_found_error => .error_add_found
  | _ => .error_unexpected

/-! Helper lemmas. -/

theorem new_founds_length (i qid : Nat) (cs : List FoundContent) :
    (new_founds i qid cs).length = cs.length := by
  induction cs generalizing i with
  | nil => rfl
  | cons c rest ih => simp [new_founds, ih]

theorem new_founds_map_content (i qid : Nat) (cs : List FoundContent) :
    (new_founds i qid cs).map Found.content = cs := by
  induction cs generalizing i with
  | nil => rfl
  | cons c rest ih => simp [new_founds, ih]

theorem mem_new_founds {f : Found} {i qid : Nat} {cs : List FoundContent}
    (h : f ∈ new_founds i qid cs) :
    f.query_id = qid ∧ i ≤ f.found_id ∧ f.found_id < i + cs.length := by
  induction cs generalizing i with
  | nil => simp [new_founds] at h
  | cons c rest ih =>
    rw [new_founds] at h
    rcases List.mem_cons.mp h with h | h
    · subst h
      exact ⟨rfl, Nat.le_refl _, by simp⟩
    · obtain ⟨h1, h2, h3⟩ := ih h
      exact ⟨h1, by omega, by simp only [List.length_cons]; omega⟩

theorem new_founds_filter_self (i qid : Nat) (cs : List FoundContent) :
    (new_founds i qid cs).filter (fun f => decide (f.query_id = qid))
      = new_founds i qid cs := by
  apply List.filter_eq_self.mpr
  intro f hf
  simp [(mem_new_founds hf).1]

theorem new_founds_filter_ne (i qid qid' : Nat) (cs : List FoundContent)
    (h : qid' ≠ qid) :
    (new_founds i qid cs).filter (fun f => decide (f.query_id = qid')) = [] := by
  apply List.filter_eq_nil_iff.mpr
  intro f hf
  simp [(mem_new_founds hf).1, h.symm]

theorem padding_between_self {p : ℚ} (h : 0 ≤ p) : padding_between p p = true := by
  simp only [padding_between, Bool.and_eq_true, decide_eq_true_eq]
  constructor <;> nlinarith

/-- Each branch of the per-source step prepends exactly one row to the
queries table, appends rows to the found table, and bumps the query-id
sequence. -/
theorem step_shape (env : Env) (p : Params) (target job_id : String)
    (cached : Bool) (source : String) (db : DB) :
    ∃ row newf m,
      (query_moving_target_step env p target job_id cached source db).2.1 =
        ⟨row :: db.queries, newf ++ db.founds, db.next_query_id + 1, m⟩ := by
  simp only [query_moving_target_step]
  split
  · exact ⟨_, _, _, rfl⟩
  · split
    · exact ⟨_, _, _, rfl⟩
    all_goals exact ⟨_, [], _, rfl⟩

theorem loop_queries_length (env : Env) (p : Params) (target job_id : String)
    (cached : Bool) (l : List String) (db : DB) :
    (query_moving_target_loop env p target job_id cached l db).2.1.queries.length
      = l.length + db.queries.length := by
  induction l generalizing db with
  | nil => simp [query_moving_target_loop]
  | cons s rest ih =>
    rw [query_moving_target_loop]
    obtain ⟨row, newf, m, hs⟩ := step_shape env p target job_id cached s db
    simp only [ih, hs]
    simp
    omega

theorem loop_suffix (env : Env) (p : Params) (target job_id : String)
    (cached : Bool) (l : List String) (db : DB) :
    db.queries.IsSuffix
        (query_moving_target_loop env p target job_id cached l db).2.1.queries
      ∧ db.founds.IsSuffix
        (query_moving_target_loop env p target job_id cached l db).2.1.founds := by
  induction l generalizing db with
  | nil => exact ⟨List.suffix_refl _, List.suffix_refl _⟩
  | cons s rest ih =>
    rw [query_moving_target_loop]
    obtain ⟨row, newf, m, hs⟩ := step_shape env p target job_id cached s db
    obtain ⟨h1, h2⟩ :=
      ih (query_moving_target_step env p target job_id cached s db).2.1
    constructor
    · apply List.IsSuffix.trans _ h1
      rw [hs]
      exact ⟨[row], rfl⟩
    · apply List.IsSuffix.trans _ h2
      rw [hs]
      exact ⟨newf, rfl⟩

/-- Behaviour of the step when the cache lookup hits and `cached=true`:
the cached rows are cloned, no execution time is recorded. -/
theorem step_cache_hit (env : Env) (p : Params) (target job_id source : String)
    (db : DB) (cq : CatchQuery)
    (h : find_catch_query env db p target source = some cq) :
    query_moving_target_step env p target job_id true source db =
      ((copy_cached_results db db.next_query_id cq.query_id).length,
       ⟨{ initial_query db p target job_id source with status := .finished } :: db.queries,
        copy_cached_results db db.next_query_id cq.query_id ++ db.founds,
        db.next_query_id + 1,
        db.next_found_id + (copy_cached_results db db.next_query_id cq.query_id).length⟩,
       [⟨source, .added_cached (copy_cached_results db db.next_query_id cq.query_id).length⟩]) := by
  simp [query_moving_target_step, h, initial_query]

/-- Behaviour of the step on the fresh path when the search succeeds. -/
theorem step_fresh_found (env : Env) (p : Params) (target job_id : String)
    (cached : Bool) (source : String) (db : DB) (fs : List FoundContent)
    (msgs : List Msg)
    (hbranch : cached = false ∨ find_catch_query env db p target source = none)
    (h : find_and_cache_outcome env p target source = (.found fs, msgs)) :
    query_moving_target_step env p target job_id cached source db =
      (fs.length,
       ⟨{ initial_query db p target job_id source with
            status := .finished, execution_time := some (env.elapsed source) } :: db.queries,
        new_founds db.next_found_id db.next_query_id fs ++ db.founds,
        db.next_query_id + 1,
        db.next_found_id + fs.length⟩,
       msgs) := by
  rcases hbranch with hb | hb
  · subst hb
    simp [query_moving_target_step, h, initial_query]
  · cases cached <;> simp [query_moving_target_step, hb, h, initial_query]

/-- Behaviour of the step on the fresh path when `DataSourceWarning` is
raised: finished status, zero count, informational message. -/
theorem step_warning (env : Env) (p : Params) (target job_id : String)
    (cached : Bool) (source : String) (db : DB) (msgs : List Msg)
    (hbranch : cached = false ∨ find_catch_query env db p target source = none)
    (h : find_and_cache_outcome env p target source = (.data_source_warning, msgs)) :
    query_moving_target_step env p target job_id cached source db =
      (0,
       ⟨{ initial_query db p target job_id source with
            status := .finished, execution_time := some (env.elapsed source) } :: db.queries,
        db.founds, db.next_query_id + 1, db.next_found_id⟩,
       msgs ++ [⟨source, .no_observations⟩]) := by
  rcases hbranch with hb | hb
  · subst hb
    simp [query_moving_target_step, h, initial_query]
  · cases cached <;> simp [query_moving_target_step, hb, h, initial_query]

/-- Behaviour of the step on the fresh path when a `CatchException` domain
failure is raised: errored status, zero count, error message. -/
theorem step_domain_error (env : Env) (p : Params) (target job_id : String)
    (cached : Bool) (source : String) (db : DB) (r : FindResult) (msgs : List Msg)
    (hbranch : cached = false ∨ find_catch_query env db p target source = none)
    (h : find_and_cache_outcome env p target source = (r, msgs))
    (hdom : r.is_domain_error = true) :
    query_moving_target_step env p target job_id cached source db =
      (0,
       ⟨{ initial_query db p target job_id source with
            status := .errored, execution_time := some (env.elapsed source) } :: db.queries,
        db.founds, db.next_query_id + 1, db.next_found_id⟩,
       msgs ++ [⟨source, domain_error_msg r⟩]) := by
  have hstep : ∀ hb : cached = false ∨ find_catch_query env db p target source = none,
      True := fun _ => trivial
  cases r <;> simp [FindResult.is_domain_error] at hdom <;>
    rcases hbranch with hb | hb <;>
      first
        | (subst hb; simp [query_moving_target_step, h, initial_query, domain_error_msg])
        | (cases cached <;>
            simp [query_moving_target_step, hb, h, initial_query, domain_error_msg])

/-- `Catch.query` in moving-target mode, when validation and the date
range check pass, returns the loop's count, store and messages. -/
theorem catch_query_moving_ok (env : Env) (p : Params) (target job_id : String)
    (l : List String) (cached : Bool) (db : DB)
    (hval : l.all (fun s => env.known_sources.contains s) = true)
    (hdr : date_range_invalid p = false) :
    Catch.query env p (.moving target) job_id (some l) cached db =
      (.ok (.count (query_moving_target_loop env p target job_id cached l db).1),
       (query_moving_target_loop env p target job_id cached l db).2.1,
       (query_moving_target_loop env p target job_id cached l db).2.2) := by
  have hv : ∀ x ∈ l, x ∈ env.known_sources := by simpa using hval
  simp [Catch.query, Catch.query_run, query_moving_target, hdr, Except.map]
  exact hv

/-! Claim theorems. -/

theorem find_catch_query_mem_filter {env : Env} {db : DB} {p : Params}
    {target source : String} {q : CatchQuery}
    (hq : find_catch_query env db p target source = some q) :
    q ∈ db.queries
      ∧ catch_query_filter p target source
          (normalize_dates (survey_date_range (env.obs source)) p.start_date p.stop_date)
          q = true := by
  simp only [find_catch_query, List.filter_head?] at hq
  exact ⟨List.mem_of_find?_eq_some hq, List.find?_some hq⟩

theorem find_first_max (pred : CatchQuery → Bool) :
    ∀ l : List CatchQuery, l.Pairwise (fun a b => b.query_id < a.query_id) →
      ∀ q, l.find? pred = some q →
        ∀ q' ∈ l, pred q' = true → q'.query_id ≤ q.query_id := by
  intro l
  induction l with
  | nil =>
    intro _ q hq
    simp at hq
  | cons a t ih =>
    intro hsorted q hq q' hq' hpred
    rcases List.mem_cons.mp hq' with h | h
    · subst h
      by_cases hpa : pred q' = true
      · rw [List.find?_cons_of_pos _ hpa] at hq
        injection hq with hq
        rw [hq]
      · exact absurd hpred hpa
    · by_cases hpa : pred a = true
      · rw [List.find?_cons_of_pos _ hpa] at hq
        injection hq with hq
        subst hq
        exact le_of_lt ((List.pairwise_cons.mp hsorted).1 q' h)
      · rw [List.find?_cons_of_neg _ hpa] at hq
        exact ih (List.pairwise_cons.mp hsorted).2 q hq q' h hpred

theorem find_catch_query_maximal {env : Env} {db : DB} {p : Params}
    {target source : String} {q : CatchQuery}
    (hsorted : db.SortedDesc)
    (hq : find_catch_query env db p target source = some q) :
    ∀ q' ∈ db.queries,
      catch_query_filter p target source
          (normalize_dates (survey_date_range (env.obs source)) p.start_date p.stop_date)
          q' = true →
      q'.query_id ≤ q.query_id := by
  simp only [find_catch_query, List.filter_head?] at hq
  exact find_first_max _ db.queries hsorted q hq

/-- C2 (amended): the cache lookup returns, if anything, the most recent
Query with status finished, identical target string, identical source,
identical uncertainty ellipse, padding within the between tolerance of the
request, and STORED start/stop dates (as stored, i.e. the raw values of
the request that created the row) equal to the normalized requested dates;
a Query with in-progress or errored status is never returned. -/
theorem C2_cache_lookup_matches (env : Env) (db : DB) (p : Params)
    (target source : String) (hsorted : db.SortedDesc) :
    (∀ q, find_catch_query env db p target source = some q →
        q ∈ db.queries ∧ q.status = .finished ∧ q.query = target ∧ q.source = source
          ∧ q.uncertainty_ellipse = p.uncertainty_ellipse
          ∧ padding_between q.padding p.padding = true
          ∧ q.start_date
              = (normalize_dates (survey_date_range (env.obs source))
                  p.start_date p.stop_date).1
          ∧ q.stop_date
              = (normalize_dates (survey_date_range (env.obs source))
                  p.start_date p.stop_date).2
          ∧ ∀ q' ∈ db.queries,
              catch_query_filter p target source
                  (normalize_dates (survey_date_range (env.obs source))
                    p.start_date p.stop_date) q' = true →
                q'.query_id ≤ q.query_id)
      ∧ ∀ q ∈ db.queries, q.status ≠ .finished →
          find_catch_query env db p target source ≠ some q := by
  constructor
  · intro q hq
    obtain ⟨hmem, hpred⟩ := find_catch_query_mem_filter hq
    have hmax := find_catch_query_maximal hsorted hq
    simp only [catch_query_filter, Bool.and_eq_true, decide_eq_true_eq] at hpred
    obtain ⟨⟨⟨⟨⟨⟨h1, h2⟩, h3⟩, h4⟩, h5⟩, h6⟩, h7⟩ := hpred
    exact ⟨hmem, h3, h1, h2, h4, h5, h6, h7, hmax⟩
  · intro q _ hne hcontra
    obtain ⟨_, hpred⟩ := find_catch_query_mem_filter hcontra
    simp only [catch_query_filter, Bool.and_eq_true, decide_eq_true_eq] at hpred
    exact hne hpred.1.1.1.1.2

/-- Witness for C2 at a concrete input. -/
theorem C2_cache_lookup_matches_witness :
    c2_db.SortedDesc
      ∧ ((∀ q, find_catch_query env1 c2_db params_open "2P" "a" = some q →
            q ∈ c2_db.queries ∧ q.status = .finished ∧ q.query = "2P" ∧ q.source = "a"
              ∧ q.uncertainty_ellipse = params_open.uncertainty_ellipse
              ∧ padding_between q.padding params_open.padding = true
              ∧ q.start_date
                  = (normalize_dates (survey_date_range (env1.obs "a"))
                      params_open.start_date params_open.stop_date).1
              ∧ q.stop_date
                  = (normalize_dates (survey_date_range (env1.obs "a"))
                      params_open.start_date params_open.stop_date).2
              ∧ ∀ q' ∈ c2_db.queries,
                  catch_query_filter params_open "2P" "a"
                      (normalize_dates (survey_date_range (env1.obs "a"))
                        params_open.start_date params_open.stop_date) q' = true →
                    q'.query_id ≤ q.query_id)
        ∧ ∀ q ∈ c2_db.queries, q.status ≠ .finished →
            find_catch_query env1 c2_db params_open "2P" "a" ≠ some q) :=
  ⟨by simp [DB.SortedDesc, c2_db, c2_q1, c2_q2],
    C2_cache_lookup_matches env1 c2_db params_open "2P" "a"
      (by simp [DB.SortedDesc, c2_db, c2_q1, c2_q2])⟩

/-- C2 (counterexample): the lookup does NOT compare against the stored
Query's normalized dates.  In this concrete store the newer finished row
`c2_q2` satisfies every condition of the claim (its stored start date lies
outside the survey coverage, so its normalized start is null, equal to the
normalized request), yet the lookup skips it and returns the older row
`c2_q1`, because it compares the normalized request with the stored raw
dates. -/
theorem C2_counterexample :
    find_catch_query env1 c2_db params_open "2P" "a" = some c2_q1
      ∧ spec_cache_match env1 params_open "2P" "a" c2_q2 = true
      ∧ c2_q2 ∈ c2_db.queries
      ∧ c2_q1.query_id < c2_q2.query_id := by
  refine ⟨?_, ?_, ?_, ?_⟩
  · norm_num [find_catch_query, env1, c2_db, c2_q1, c2_q2, params_open,
      survey_date_range, normalize_dates, catch_query_filter, padding_between,
      Option.some_ne_none]
  · norm_num [spec_cache_match, env1, c2_q2, params_open, survey_date_range,
      normalize_dates, padding_between]
  · simp [c2_db]
  · simp [c2_q1, c2_q2]

/-- C1 (counterexample): two identical `query()` calls with `cached=true`
whose (identical) requested start date lies before the source's coverage
do NOT reuse the first call's result.  The first call stores the raw start
date on its Query row; the second call normalizes its request before the
lookup and therefore misses the cache, so the expensive search runs a
second time and the second call's Query carries a non-null execution
time, contradicting the claim. -/
theorem C1_counterexample :
    c1_run1.1 = .ok (.count 1)
      ∧ (c1_run1.2.1.queries.head?.map CatchQuery.status) = some .finished
      ∧ (c1_run2.2.1.queries.head?.map CatchQuery.execution_time) = some (some 1)
      ∧ ¬ (c1_run2.2.1.queries.head?.map CatchQuery.execution_time) = some none := by
  refine ⟨?_, ?_, ?_, ?_⟩ <;>
    norm_num [c1_run1, c1_run2, Catch.query, Catch.query_run, query_moving_target,
      date_range_invalid, query_moving_target_loop, query_moving_target_step,
      find_catch_query, survey_date_range, normalize_dates, catch_query_filter,
      padding_between, initial_query, copy_cached_results, new_founds,
      find_and_cache_outcome, env1, params_out, DB.empty, Except.map,
      Option.some_ne_none]

/-- C1 (amended): for every target, source and parameter set whose date
bounds coincide with their normalized form (each bound null or strictly
inside the source's coverage), whose padding is non-negative, and whose
first call misses the cache and searches successfully, two identical
`query()` calls with `cached=true` run the expensive search only once:
both calls return the same count, the second call finds the first call's
finished Query, and the second call's Query has a null execution time and
Found rows equal in content but distinct in identity from the first
call's. -/
theorem C1_cached_second_call (env : Env) (p : Params) (target job1 job2 s : String)
    (db0 : DB) (fs : List FoundContent) (msgs : List Msg)
    (h_pad : 0 ≤ p.padding)
    (h_dr : date_range_invalid p = false)
    (h_known : (([s].all fun x => env.known_sources.contains x)) = true)
    (h_norm : normalize_dates (survey_date_range (env.obs s)) p.start_date p.stop_date
        = (p.start_date, p.stop_date))
    (h_miss : find_catch_query env db0 p target s = none)
    (h_found : find_and_cache_outcome env p target s = (.found fs, msgs))
    (h_wf : db0.WF) :
    (Catch.query env p (.moving target) job1 (some [s]) true db0).1
        = .ok (.count fs.length)
      ∧ (Catch.query env p (.moving target) job2 (some [s]) true
            (Catch.query env p (.moving target) job1 (some [s]) true db0).2.1).1
          = .ok (.count fs.length)
      ∧ ∃ q1 q2,
          (Catch.query env p (.moving target) job1 (some [s]) true
              db0).2.1.queries.head? = some q1
            ∧ (Catch.query env p (.moving target) job2 (some [s]) true
                  (Catch.query env p (.moving target) job1 (some [s]) true
                    db0).2.1).2.1.queries.head? = some q2
            ∧ q1.status = .finished
            ∧ q1.execution_time = some (env.elapsed s)
            ∧ q2.status = .finished
            ∧ q2.execution_time = none
            ∧ (((Catch.query env p (.moving target) job2 (some [s]) true
                    (Catch.query env p (.moving target) job1 (some [s]) true
                      db0).2.1).2.1.founds.filter
                  (fun f => decide (f.query_id = q2.query_id))).map Found.content)
                = fs
            ∧ (((Catch.query env p (.moving target) job1 (some [s]) true
                    db0).2.1.founds.filter
                  (fun f => decide (f.query_id = q1.query_id))).map Found.content)
                = fs
            ∧ ∀ f2 ∈ (Catch.query env p (.moving target) job2 (some [s]) true
                    (Catch.query env p (.moving target) job1 (some [s]) true
                      db0).2.1).2.1.founds.filter
                  (fun f => decide (f.query_id = q2.query_id)),
                ∀ f1 ∈ (Catch.query env p (.moving target) job1 (some [s]) true
                      db0).2.1.founds.filter
                    (fun f => decide (f.query_id = q1.query_id)),
                  f2.found_id ≠ f1.found_id := by
  have hstep1 := step_fresh_found env p target job1 true s db0 fs msgs
    (Or.inr h_miss) h_found
  have hloop1 : query_moving_target_loop env p target job1 true [s] db0
      = (fs.length,
         ⟨{ initial_query db0 p target job1 s with
              status := .finished, execution_time := some (env.elapsed s) } :: db0.queries,
          new_founds db0.next_found_id db0.next_query_id fs ++ db0.founds,
          db0.next_query_id + 1, db0.next_found_id + fs.length⟩,
         msgs) := by
    simp only [query_moving_target_loop]
    rw [hstep1]
    simp
  have hrun1 : Catch.query env p (.moving target) job1 (some [s]) true db0
      = (.ok (.count fs.length),
         ⟨{ initial_query db0 p target job1 s with
              status := .finished, execution_time := some (env.elapsed s) } :: db0.queries,
          new_founds db0.next_found_id db0.next_query_id fs ++ db0.founds,
          db0.next_query_id + 1, db0.next_found_id + fs.length⟩,
         msgs) := by
    rw [catch_query_moving_ok env p target job1 [s] true db0 h_known h_dr, hloop1]
  have hfilter_q1 : catch_query_filter p target s
      (normalize_dates (survey_date_range (env.obs s)) p.start_date p.stop_date)
      { initial_query db0 p target job1 s with
        status := .finished, execution_time := some (env.elapsed s) } = true := by
    simp [catch_query_filter, initial_query, h_norm, padding_between_self h_pad]
  have hfind1 : find_catch_query env
      ⟨{ initial_query db0 p target job1 s with
           status := .finished, execution_time := some (env.elapsed s) } :: db0.queries,
       new_founds db0.next_found_id db0.next_query_id fs ++ db0.founds,
       db0.next_query_id + 1, db0.next_found_id + fs.length⟩
      p target s
      = some { initial_query db0 p target job1 s with
               status := .finished, execution_time := some (env.elapsed s) } := by
    simp only [find_catch_query, List.filter_head?]
    exact List.find?_cons_of_pos _ hfilter_q1
  have hstep2 := step_cache_hit env p target job2 s
    ⟨{ initial_query db0 p target job1 s with
         status := .finished, execution_time := some (env.elapsed s) } :: db0.queries,
     new_founds db0.next_found_id db0.next_query_id fs ++ db0.founds,
     db0.next_query_id + 1, db0.next_found_id + fs.length⟩
    { initial_query db0 p target job1 s with
      status := .finished, execution_time := some (env.elapsed s) }
    hfind1
  have hold0 : db0.founds.filter (fun f => decide (f.query_id = db0.next_query_id))
      = [] :=
    List.filter_eq_nil_iff.mpr
      (fun f hf => by simp [Nat.ne_of_lt ((h_wf.2 f hf).2)])
  have hcopy : copy_cached_results
      ⟨{ initial_query db0 p target job1 s with
           status := .finished, execution_time := some (env.elapsed s) } :: db0.queries,
       new_founds db0.next_found_id db0.next_query_id fs ++ db0.founds,
       db0.next_query_id + 1, db0.next_found_id + fs.length⟩
      (db0.next_query_id + 1)
      ({ initial_query db0 p target job1 s with
          status := .finished, execution_time := some (env.elapsed s) } : CatchQuery).query_id
      = new_founds (db0.next_found_id + fs.length) (db0.next_query_id + 1) fs := by
    show new_founds (db0.next_found_id + fs.length) (db0.next_query_id + 1)
        (((new_founds db0.next_found_id db0.next_query_id fs
            ++ db0.founds).filter
          (fun f => decide (f.query_id = db0.next_query_id))).map Found.content)
      = new_founds (db0.next_found_id + fs.length) (db0.next_query_id + 1) fs
    rw [List.filter_append, new_founds_filter_self, hold0, List.append_nil,
      new_founds_map_content]
  rw [hcopy] at hstep2
  rw [new_founds_length] at hstep2
  have hloop2 : query_moving_target_loop env p target job2 true [s]
      ⟨{ initial_query db0 p target job1 s with
           status := .finished, execution_time := some (env.elapsed s) } :: db0.queries,
       new_founds db0.next_found_id db0.next_query_id fs ++ db0.founds,
       db0.next_query_id + 1, db0.next_found_id + fs.length⟩
      = (fs.length,
         ⟨{ initial_query
              ⟨{ initial_query db0 p target job1 s with
                   status := .finished, execution_time := some (env.elapsed s) } :: db0.queries,
               new_founds db0.next_found_id db0.next_query_id fs ++ db0.founds,
               db0.next_query_id + 1, db0.next_found_id + fs.length⟩
              p target job2 s with status := .finished }
            :: ({ initial_query db0 p target job1 s with
                   status := .finished, execution_time := some (env.elapsed s) } :: db0.queries),
          new_founds (db0.next_found_id + fs.length) (db0.next_query_id + 1) fs
            ++ (new_founds db0.next_found_id db0.next_query_id fs ++ db0.founds),
          db0.next_query_id + 1 + 1, db0.next_found_id + fs.length + fs.length⟩,
         [⟨s, .added_cached fs.length⟩]) := by
    simp only [query_moving_target_loop]
    rw [hstep2]
    simp
  have hrun2 : Catch.query env p (.moving target) job2 (some [s]) true
      ⟨{ initial_query db0 p target job1 s with
           status := .finished, execution_time := some (env.elapsed s) } :: db0.queries,
       new_founds db0.next_found_id db0.next_query_id fs ++ db0.founds,
       db0.next_query_id + 1, db0.next_found_id + fs.length⟩
      = (.ok (.count fs.length),
         ⟨{ initial_query
              ⟨{ initial_query db0 p target job1 s with
                   status := .finished, execution_time := some (env.elapsed s) } :: db0.queries,
               new_founds db0.next_found_id db0.next_query_id fs ++ db0.founds,
               db0.next_query_id + 1, db0.next_found_id + fs.length⟩
              p target job2 s with status := .finished }
            :: ({ initial_query db0 p target job1 s with
                   status := .finished, execution_time := some (env.elapsed s) } :: db0.queries),
          new_founds (db0.next_found_id + fs.length) (db0.next_query_id + 1) fs
            ++ (new_founds db0.next_found_id db0.next_query_id fs ++ db0.founds),
          db0.next_query_id + 1 + 1, db0.next_found_id + fs.length + fs.length⟩,
         [⟨s, .added_cached fs.length⟩]) := by
    rw [catch_query_moving_ok env p target job2 [s] true _ h_known h_dr, hloop2]
  have hfilterF1 : (new_founds db0.next_found_id db0.next_query_id fs
        ++ db0.founds).filter
        (fun f => decide (f.query_id = db0.next_query_id))
      = new_founds db0.next_found_id db0.next_query_id fs := by
    rw [List.filter_append, new_founds_filter_self, hold0, List.append_nil]
  have hfilterF2 : (new_founds (db0.next_found_id + fs.length)
          (db0.next_query_id + 1) fs
        ++ (new_founds db0.next_found_id db0.next_query_id fs ++ db0.founds)).filter
        (fun f => decide (f.query_id = db0.next_query_id + 1))
      = new_founds (db0.next_found_id + fs.length) (db0.next_query_id + 1) fs := by
    rw [List.filter_append, new_founds_filter_self, List.filter_append,
      new_founds_filter_ne _ _ _ _ (Nat.succ_ne_self db0.next_query_id)]
    have hold1 : db0.founds.filter
        (fun f => decide (f.query_id = db0.next_query_id + 1)) = [] :=
      List.filter_eq_nil_iff.mpr
        (fun f hf => by
          have := (h_wf.2 f hf).2
          simp
          omega)
    rw [hold1]
    simp
  refine ⟨?_, ?_, ?_⟩
  · rw [hrun1]
  · rw [hrun1]
    dsimp only
    rw [hrun2]
  · refine ⟨{ initial_query db0 p target job1 s with
        status := .finished, execution_time := some (env.elapsed s) },
      { initial_query
          ⟨{ initial_query db0 p target job1 s with
               status := .finished, execution_time := some (env.elapsed s) } :: db0.queries,
           new_founds db0.next_found_id db0.next_query_id fs ++ db0.founds,
           db0.next_query_id + 1, db0.next_found_id + fs.length⟩
          p target job2 s with status := .finished },
      ?_, ?_, rfl, rfl, rfl, rfl, ?_, ?_, ?_⟩
    · rw [hrun1]
      rfl
    · rw [hrun1]
      dsimp only
      rw [hrun2]
      rfl
    · rw [hrun1]
      dsimp only
      rw [hrun2]
      simp only [initial_query]
      rw [hfilterF2, new_founds_map_content]
    · rw [hrun1]
      simp only [initial_query]
      rw [hfilterF1, new_founds_map_content]
    · intro f2 hf2 f1 hf1
      rw [hrun1] at hf2 hf1
      dsimp only at hf2 hf1
      rw [hrun2] at hf2
      simp only [initial_query] at hf2 hf1
      rw [hfilterF2] at hf2
      rw [hfilterF1] at hf1
      have hb2 := (mem_new_founds hf2).2.1
      have hb1 := (mem_new_founds hf1).2.2
      omega

/-- Witness for C1 at a concrete input. -/
theorem C1_cached_second_call_witness :
    (0 : ℚ) ≤ params_open.padding
      ∧ date_range_invalid params_open = false
      ∧ ((["a"].all fun x => env1.known_sources.contains x)) = true
      ∧ normalize_dates (survey_date_range (env1.obs "a")) params_open.start_date
          params_open.stop_date = (params_open.start_date, params_open.stop_date)
      ∧ find_catch_query env1 DB.empty params_open "2P" "a" = none
      ∧ find_and_cache_outcome env1 params_open "2P" "a"
          = (.found [⟨7, 150⟩], [⟨"a", .query_range 100 200⟩])
      ∧ DB.empty.WF
      ∧ ((Catch.query env1 params_open (.moving "2P") "j1" (some ["a"]) true
            DB.empty).1 = .ok (.count [(⟨7, 150⟩ : FoundContent)].length)
        ∧ (Catch.query env1 params_open (.moving "2P") "j2" (some ["a"]) true
              (Catch.query env1 params_open (.moving "2P") "j1" (some ["a"]) true
                DB.empty).2.1).1 = .ok (.count [(⟨7, 150⟩ : FoundContent)].length)
        ∧ ∃ q1 q2,
            (Catch.query env1 params_open (.moving "2P") "j1" (some ["a"]) true
                DB.empty).2.1.queries.head? = some q1
              ∧ (Catch.query env1 params_open (.moving "2P") "j2" (some ["a"]) true
                    (Catch.query env1 params_open (.moving "2P") "j1" (some ["a"])
                      true DB.empty).2.1).2.1.queries.head? = some q2
              ∧ q1.status = .finished
              ∧ q1.execution_time = some (env1.elapsed "a")
              ∧ q2.status = .finished
              ∧ q2.execution_time = none
              ∧ (((Catch.query env1 params_open (.moving "2P") "j2" (some ["a"]) true
                      (Catch.query env1 params_open (.moving "2P") "j1" (some ["a"])
                        true DB.empty).2.1).2.1.founds.filter
                    (fun f => decide (f.query_id = q2.query_id))).map Found.content)
                  = [(⟨7, 150⟩ : FoundContent)]
              ∧ (((Catch.query env1 params_open (.moving "2P") "j1" (some ["a"]) true
                      DB.empty).2.1.founds.filter
                    (fun f => decide (f.query_id = q1.query_id))).map Found.content)
                  = [(⟨7, 150⟩ : FoundContent)]
              ∧ ∀ f2 ∈ (Catch.query env1 params_open (.moving "2P") "j2" (some ["a"])
                      true (Catch.query env1 params_open (.moving "2P") "j1"
                        (some ["a"]) true DB.empty).2.1).2.1.founds.filter
                    (fun f => decide (f.query_id = q2.query_id)),
                  ∀ f1 ∈ (Catch.query env1 params_open (.moving "2P") "j1"
                        (some ["a"]) true DB.empty).2.1.founds.filter
                      (fun f => decide (f.query_id = q1.query_id)),
                    f2.found_id ≠ f1.found_id) :=
  ⟨by norm_num [params_open],
    rfl,
    by simp [env1],
    by simp [normalize_dates, survey_date_range, env1, params_open],
    by simp [find_catch_query, DB.empty],
    by norm_num [find_and_cache_outcome, env1, params_open, survey_date_range],
    by simp [DB.WF, DB.empty],
    C1_cached_second_call env1 params_open "2P" "j1" "j2" "a" DB.empty
      [⟨7, 150⟩] [⟨"a", .query_range 100 200⟩]
      (by norm_num [params_open])
      rfl
      (by simp [env1])
      (by simp [normalize_dates, survey_date_range, env1, params_open])
      (by simp [find_catch_query, DB.empty])
      (by norm_num [find_and_cache_outcome, env1, params_open, survey_date_range])
      (by simp [DB.WF, DB.empty])⟩

/-- C9: a source whose survey has no observations at all, or no overlap
with the requested window (`DataSourceWarning`), yields on the fresh
search path a Query with status finished contributing zero to the count,
an informational message, no new Found rows; the call returns normally to
the caller and dispatch continues with the remaining sources. -/
theorem C9_no_data_finished (env : Env) (p : Params) (target job_id : String)
    (cached : Bool) (s : String) (db : DB) (rest : List String)
    (h_warn : find_and_cache_outcome env p target s = (.data_source_warning, []))
    (h_fresh : cached = false ∨ find_catch_query env db p target s = none)
    (h_val : ((s :: rest).all fun x => env.known_sources.contains x) = true)
    (h_dr : date_range_invalid p = false) :
    ∃ q db',
      query_moving_target_step env p target job_id cached s db
          = (0, db', [⟨s, .no_observations⟩])
        ∧ db'.queries = q :: db.queries
        ∧ q.status = .finished
        ∧ db'.founds = db.founds
        ∧ Msg.is_info ⟨s, .no_observations⟩ = true
        ∧ (Catch.query env p (.moving target) job_id (some (s :: rest)) cached db).1
            = .ok (.count
                (query_moving_target_loop env p target job_id cached rest db').1) := by
  have hstep := step_warning env p target job_id cached s db [] h_fresh h_warn
  rw [List.nil_append] at hstep
  refine ⟨_, _, hstep, rfl, rfl, rfl, rfl, ?_⟩
  rw [catch_query_moving_ok env p target job_id (s :: rest) cached db h_val h_dr]
  show Except.ok (QueryOutput.count
      (query_moving_target_loop env p target job_id cached (s :: rest) db).1) = _
  rw [query_moving_target_loop, hstep]
  simp

/-- Witness for C9 at a concrete input. -/
theorem C9_no_data_finished_witness :
    find_and_cache_outcome env_nodata params_open "2P" "a" = (.data_source_warning, [])
      ∧ find_catch_query env_nodata DB.empty params_open "2P" "a" = none
      ∧ ((["a"].all fun x => env_nodata.known_sources.contains x) = true)
      ∧ date_range_invalid params_open = false
      ∧ ∃ q db',
          query_moving_target_step env_nodata params_open "2P" "j1" true "a" DB.empty
              = (0, db', [⟨"a", .no_observations⟩])
            ∧ db'.queries = q :: DB.empty.queries
            ∧ q.status = .finished
            ∧ db'.founds = DB.empty.founds
            ∧ Msg.is_info ⟨"a", .no_observations⟩ = true
            ∧ (Catch.query env_nodata params_open (.moving "2P") "j1" (some ["a"])
                  true DB.empty).1
                = .ok (.count
                    (query_moving_target_loop env_nodata params_open "2P" "j1" true
                      [] db').1) :=
  ⟨by simp [find_and_cache_outcome, env_nodata, env1, survey_date_range],
    by simp [find_catch_query, DB.empty],
    by simp [env_nodata, env1],
    rfl,
    C9_no_data_finished env_nodata params_open "2P" "j1" true "a" DB.empty []
      (by simp [find_and_cache_outcome, env_nodata, env1, survey_date_range])
      (Or.inr (by simp [find_catch_query, DB.empty]))
      (by simp [env_nodata, env1]) rfl⟩

/-- C10: a domain failure (`CatchException`: ephemeris lookup, spatial
search, or found-table insertion error) while processing one source sets
that source's Query to errored with zero count contribution and no new
Found rows, does not prevent processing of subsequent sources (one Query
row is still created per remaining source and the job count equals the
remaining sources' count), and never alters rows already committed before
the source ran (they survive as a suffix of the final tables). -/
theorem C10_domain_error_isolation (env : Env) (p : Params) (target job_id : String)
    (cached : Bool) (s : String) (db : DB) (rest : List String)
    (r : FindResult) (msgs : List Msg)
    (h_err : find_and_cache_outcome env p target s = (r, msgs))
    (hdom : r.is_domain_error = true)
    (h_fresh : cached = false ∨ find_catch_query env db p target s = none) :
    ∃ q db',
      query_moving_target_step env p target job_id cached s db
          = (0, db', msgs ++ [⟨s, domain_error_msg r⟩])
        ∧ db'.queries = q :: db.queries
        ∧ q.status = .errored
        ∧ db'.founds = db.founds
        ∧ (query_moving_target_loop env p target job_id cached (s :: rest) db).1
            = (query_moving_target_loop env p target job_id cached rest db').1
        ∧ (query_moving_target_loop env p target job_id cached rest db').2.1.queries.length
            = rest.length + 1 + db.queries.length
        ∧ db.queries.IsSuffix
            ((query_moving_target_loop env p target job_id cached (s :: rest)
              db).2.1.queries)
        ∧ db.founds.IsSuffix
            ((query_moving_target_loop env p target job_id cached (s :: rest)
              db).2.1.founds) := by
  have hstep := step_domain_error env p target job_id cached s db r msgs h_fresh h_err hdom
  refine ⟨_, _, hstep, rfl, rfl, rfl, ?_, ?_, ?_, ?_⟩
  · rw [query_moving_target_loop, hstep]
    simp
  · rw [loop_queries_length]
    simp only [List.length_cons]
    omega
  · exact (loop_suffix env p target job_id cached (s :: rest) db).1
  · exact (loop_suffix env p target job_id cached (s :: rest) db).2

/-- Witness for C10 at a concrete input. -/
theorem C10_domain_error_isolation_witness :
    find_and_cache_outcome env_eph params_open "2P" "a"
        = (.ephemeris_error, [⟨"a", .query_range 100 200⟩])
      ∧ FindResult.is_domain_error .ephemeris_error = true
      ∧ find_catch_query env_eph DB.empty params_open "2P" "a" = none
      ∧ ∃ q db',
          query_moving_target_step env_eph params_open "2P" "j1" true "a" DB.empty
              = (0, db', [⟨"a", .query_range 100 200⟩]
                  ++ [⟨"a", domain_error_msg .ephemeris_error⟩])
            ∧ db'.queries = q :: DB.empty.queries
            ∧ q.status = .errored
            ∧ db'.founds = DB.empty.founds
            ∧ (query_moving_target_loop env_eph params_open "2P" "j1" true
                  ("a" :: ["b"]) DB.empty).1
                = (query_moving_target_loop env_eph params_open "2P" "j1" true
                    ["b"] db').1
            ∧ (query_moving_target_loop env_eph params_open "2P" "j1" true
                  ["b"] db').2.1.queries.length
                = ["b"].length + 1 + DB.empty.queries.length
            ∧ DB.empty.queries.IsSuffix
                ((query_moving_target_loop env_eph params_open "2P" "j1" true
                  ("a" :: ["b"]) DB.empty).2.1.queries)
            ∧ DB.empty.founds.IsSuffix
                ((query_moving_target_loop env_eph params_open "2P" "j1" true
                  ("a" :: ["b"]) DB.empty).2.1.founds) :=
  ⟨by norm_num [find_and_cache_outcome, env_eph, env1, survey_date_range, params_open],
    rfl,
    by simp [find_catch_query, DB.empty],
    C10_domain_error_isolation env_eph params_open "2P" "j1" true "a" DB.empty ["b"]
      .ephemeris_error [⟨"a", .query_range 100 200⟩]
      (by norm_num [find_and_cache_outcome, env_eph, env1, survey_date_range, params_open])
      rfl
      (Or.inr (by simp [find_catch_query, DB.empty]))⟩

/-- C3 (counterexample): a moving-target job with start date after stop
date is NOT handled as a per-source domain failure.  On this concrete
input the call raises `DateRangeError` to the caller, no Query row is
created for any source (so none transitions to errored), and no source is
dispatched (no messages are sent), contradicting the claim. -/
theorem C3_counterexample :
    c3_run.1 = .error .date_range_error ∧ c3_run.2.1 = DB.empty ∧ c3_run.2.2 = [] := by
  refine ⟨?_, ?_, ?_⟩ <;>
    norm_num [c3_run, Catch.query, Catch.query_run, query_moving_target,
      date_range_invalid, c3_params, env1, Except.map]

/-- C3 (amended): for every moving-target job whose requested date range
is invalid (start date after stop date), the whole call fails before any
per-source processing: `DateRangeError` propagates to the caller, the
store is unchanged (no Query rows are created, none transitions to
errored) and no source is dispatched (no messages are sent). -/
theorem C3_date_range_aborts_job (env : Env) (p : Params) (target job_id : String)
    (l : List String) (cached : Bool) (db : DB) (t0 t1 : ℚ)
    (h0 : p.start_date = some t0) (h1 : p.stop_date = some t1) (hlt : t1 < t0)
    (hval : l.all (fun s => env.known_sources.contains s) = true) :
    Catch.query env p (.moving target) job_id (some l) cached db
      = (.error .date_range_error, db, []) := by
  have hv : ∀ x ∈ l, x ∈ env.known_sources := by simpa using hval
  have hinv : date_range_invalid p = true := by
    simp [date_range_invalid, h0, h1, hlt]
  simp [Catch.query, Catch.query_run, query_moving_target, hinv, Except.map, hv]
  exact hv

/-- Witness for C3 at a concrete input. -/
theorem C3_date_range_aborts_job_witness :
    c3_params.start_date = some 10 ∧ c3_params.stop_date = some 5 ∧ (5 : ℚ) < 10
      ∧ (["a"].all (fun s => env1.known_sources.contains s)) = true
      ∧ Catch.query env1 c3_params (.moving "2P") "j1" (some ["a"]) true DB.empty
          = (.error .date_range_error, DB.empty, []) :=
  ⟨rfl, rfl, by norm_num, by simp [env1],
    C3_date_range_aborts_job env1 c3_params "2P" "j1" ["a"] true DB.empty 10 5
      rfl rfl (by norm_num) (by simp [env1])⟩

/-- C4: for every Query row produced by the engine, `execution_time` is
null exactly when the row was produced by the cache-copy branch
(`cached=true` and the lookup hit); every fresh moving-target search and
every fixed-target search records a non-null execution time on exit
regardless of outcome. -/
theorem C4_execution_time_null_iff_cached :
    (∀ (env : Env) (p : Params) (target job_id : String) (cached : Bool)
        (source : String) (db : DB),
      ((query_moving_target_step env p target job_id cached source db).2.1.queries.head?.map
          CatchQuery.execution_time) = some none
        ↔ cached = true ∧ (find_catch_query env db p target source).isSome = true)
      ∧ (∀ (env : Env) (p : Params) (target job_id : String) (sources : List String)
          (db : DB),
        ((query_fixed_target env p target job_id sources db).2.1.queries.head?.map
            CatchQuery.execution_time)
          = some (some (env.elapsed (String.intercalate "," sources)))) := by
  constructor
  · intro env p target job_id cached source db
    cases cached with
    | false =>
      rcases hfc : find_and_cache_outcome env p target source with ⟨r, msgs⟩
      cases r <;> simp [query_moving_target_step, hfc, initial_query]
    | true =>
      cases hq : find_catch_query env db p target source with
      | none =>
        rcases hfc : find_and_cache_outcome env p target source with ⟨r, msgs⟩
        cases r <;> simp [query_moving_target_step, hq, hfc, initial_query]
      | some cq =>
        simp [query_moving_target_step, hq, initial_query]
  · intro env p target job_id sources db
    cases hf : env.fixed_search target p.padding <;> simp [query_fixed_target, hf]

/-- C5: a `query` call whose sources list contains a name missing from the
known-source registry fails whole with `ValueError` before any write: the
store is returned untouched and no Query row is created for any source,
valid ones included. -/
theorem C5_unknown_source_aborts (env : Env) (p : Params) (target : Target)
    (job_id : String) (l : List String) (cached : Bool) (db : DB) (s : String)
    (hs : s ∈ l) (hunk : env.known_sources.contains s = false) :
    Catch.query env p target job_id (some l) cached db
      = (.error .value_error, db, []) := by
  have hsmem : s ∉ env.known_sources := by simpa using hunk
  have hno : ¬ ∀ x ∈ l, x ∈ env.known_sources := fun hc => hsmem (hc s hs)
  simp [Catch.query, hno]

/-- Witness for C5 at a concrete input. -/
theorem C5_unknown_source_aborts_witness :
    ("zzz" ∈ ["zzz"]) ∧ env1.known_sources.contains "zzz" = false
      ∧ Catch.query env1 params_open (.moving "2P") "j1" (some ["zzz"]) true DB.empty
          = (.error .value_error, DB.empty, []) :=
  ⟨by simp, by simp [env1],
    C5_unknown_source_aborts env1 params_open (.moving "2P") "j1" ["zzz"] true
      DB.empty "zzz" (by simp) (by simp [env1])⟩

/-- C6: `is_query_cached` with a non-empty validated sources list returns
exactly whether the LAST source of the list has a cached query (an earlier
source's cache miss is overwritten and cannot make the result false), and
with an empty sources list it returns true. -/
theorem C6_is_query_cached_last_source (env : Env) (p : Params) (target : String)
    (db : DB) (l : List String) (s : String)
    (hval : ((l ++ [s]).all fun x => env.known_sources.contains x) = true) :
    Catch.is_query_cached env p target (some (l ++ [s])) db
        = .ok (find_catch_query env db p target s).isSome
      ∧ Catch.is_query_cached env p target (some []) db = .ok true := by
  have hv : (∀ x ∈ l, x ∈ env.known_sources) ∧ s ∈ env.known_sources := by
    simpa using hval
  constructor
  · simp [Catch.is_query_cached, is_query_cached_loop, List.foldl_append]
    exact hv
  · simp [Catch.is_query_cached, is_query_cached_loop]

/-- Witness for C6 at a concrete input. -/
theorem C6_is_query_cached_last_source_witness :
    (((["a"] ++ ["a"]).all fun x => env1.known_sources.contains x) = true)
      ∧ (Catch.is_query_cached env1 params_open "2P" (some (["a"] ++ ["a"])) DB.empty
            = .ok (find_catch_query env1 DB.empty params_open "2P" "a").isSome
        ∧ Catch.is_query_cached env1 params_open "2P" (some []) DB.empty = .ok true) :=
  ⟨by simp [env1],
    C6_is_query_cached_last_source env1 params_open "2P" DB.empty ["a"] "a"
      (by simp [env1])⟩

/-- C7: when the survey has data, a requested start date at or before the
survey's earliest observation time is normalized away, so the cache key
equals that of a request with no start date (symmetrically for a stop date
at or after the latest observation time), while a bound strictly inside
the survey's coverage is kept. -/
theorem C7_date_normalization (obs : List (ℚ × ℚ)) (s0 s1 t : ℚ) (sd td : Option ℚ)
    (h : survey_date_range obs = some (s0, s1)) :
    (t ≤ s0 →
        normalize_dates (survey_date_range obs) (some t) td
          = normalize_dates (survey_date_range obs) none td)
      ∧ (s1 ≤ t →
        normalize_dates (survey_date_range obs) sd (some t)
          = normalize_dates (survey_date_range obs) sd none)
      ∧ (s0 < t → t < s1 →
        (normalize_dates (survey_date_range obs) (some t) td).1 = some t
          ∧ (normalize_dates (survey_date_range obs) sd (some t)).2 = some t) := by
  rw [h]
  refine ⟨?_, ?_, ?_⟩
  · intro ht
    simp [normalize_dates, not_lt.mpr ht]
  · intro ht
    simp [normalize_dates, not_lt.mpr ht]
  · intro h1 h2
    exact ⟨by simp [normalize_dates, h1], by simp [normalize_dates, h2]⟩

/-- Witness for C7 at a concrete input. -/
theorem C7_date_normalization_witness :
    survey_date_range [((100 : ℚ), (200 : ℚ))] = some (100, 200)
      ∧ ((150 : ℚ) ≤ 100 →
          normalize_dates (survey_date_range [((100 : ℚ), (200 : ℚ))]) (some 150) none
            = normalize_dates (survey_date_range [((100 : ℚ), (200 : ℚ))]) none none)
      ∧ ((200 : ℚ) ≤ 150 →
          normalize_dates (survey_date_range [((100 : ℚ), (200 : ℚ))]) none (some 150)
            = normalize_dates (survey_date_range [((100 : ℚ), (200 : ℚ))]) none none)
      ∧ ((100 : ℚ) < 150 → (150 : ℚ) < 200 →
          (normalize_dates (survey_date_range [((100 : ℚ), (200 : ℚ))]) (some 150) none).1
              = some 150
            ∧ (normalize_dates (survey_date_range [((100 : ℚ), (200 : ℚ))]) none (some 150)).2
              = some 150) :=
  ⟨by simp [survey_date_range],
    C7_date_normalization [((100 : ℚ), (200 : ℚ))] 100 200 150 none none
      (by simp [survey_date_range])⟩

/-- C8: a stored padding `p1` matches a requested padding `p2` exactly
when their difference is at most one percent of the requested value; for
positive requests this is the relative difference being at most 1/100. -/
theorem C8_padding_tolerance (p1 p2 : ℚ) :
    (padding_between p1 p2 = true ↔ |p1 - p2| ≤ p2 * (1 / 100))
      ∧ (0 < p2 → (padding_between p1 p2 = true ↔ |p1 - p2| / p2 ≤ 1 / 100)) := by
  have key : padding_between p1 p2 = true ↔ p2 * 0.99 ≤ p1 ∧ p1 ≤ p2 * 1.01 := by
    simp [padding_between]
  have habs : |p1 - p2| ≤ p2 * (1 / 100) ↔ p2 * 0.99 ≤ p1 ∧ p1 ≤ p2 * 1.01 := by
    rw [abs_sub_le_iff]
    constructor
    · rintro ⟨a, b⟩
      constructor <;> nlinarith
    · rintro ⟨a, b⟩
      constructor <;> nlinarith
  refine ⟨by rw [key, habs], ?_⟩
  intro hpos
  have h2 : |p1 - p2| / p2 ≤ 1 / 100 ↔ |p1 - p2| ≤ p2 * (1 / 100) := by
    rw [div_le_iff₀ hpos, mul_comm]
  rw [key, h2, habs]

/-- Witness for C8 at a concrete input. -/
theorem C8_padding_tolerance_witness :
    (padding_between 1 1 = true ↔ |(1 : ℚ) - 1| ≤ 1 * (1 / 100))
      ∧ ((0 : ℚ) < 1 →
          (padding_between 1 1 = true ↔ |(1 : ℚ) - 1| / 1 ≤ 1 / 100)) :=
  C8_padding_tolerance 1 1

end CatchSpec
